import Mathlib

/-!
Verification development for the PipeWire buffered-streaming synchronization
engine: the RTP receive/playback/capture path (`receive_rtp_audio`,
`process_audio_playback`, `process_audio_capture`, `flush_audio_packets`),
the sine-source example node's format negotiation and buffer reuse
(`port_set_format`, `impl_port_reuse_buffer`), and the v4l2 buffer recycle
(`spa_v4l2_buffer_recycle`).

Machine integers are modelled as `Nat` with explicit reduction modulo
`2^32` / `2^16` where the C code uses `uint32_t` / `uint16_t` arithmetic;
`int32_t` values are modelled as `Int` obtained by reinterpreting the low
32 bits.  Byte buffers are `List Nat` with every byte reduced mod 256.
-/

namespace Pipewire

/-- Reduce to a 32-bit unsigned value, as C `uint32_t` arithmetic does. -/
def u32 (n : Nat) : Nat := n % 4294967296

/-- Unsigned 32-bit subtraction `a - b` with wraparound. -/
def u32sub (a b : Nat) : Nat := (u32 a + 4294967296 - u32 b) % 4294967296

/-- Reinterpret the low 32 bits of `n` as a signed `int32_t` value. -/
def i32 (n : Nat) : Int :=
  if u32 n < 2147483648 then (u32 n : Int) else (u32 n : Int) - 4294967296

/-- Reinterpret a (possibly negative) `Int` as its `uint32_t` bit pattern. -/
def u32ofInt (i : Int) : Nat := (i % 4294967296).toNat

/-- Byte `i` of a packet; C memory holds `uint8_t`, hence the mod 256. -/
def byteAt (pkt : List Nat) (i : Nat) : Nat := pkt.getD i 0 % 256

/-! ## Ring buffer

Modelled from the spec: `spa/utils/ringbuffer.h` is not under `src/`.
Per spec §4.1 the ring buffer is a pair of unbounded monotonically
increasing 32-bit cursors; `get_write_index`/`get_read_index` return
`write_index - read_index` as a signed 32-bit quantity together with the
cursor, `write_data`/`read_data` copy bytes into/out of the circular byte
region (wrapping at the capacity), and `write_update`/`read_update` are
plain cursor stores.  The byte storage itself lives in the caller
(`impl->buffer` in the source), exactly as at the C call sites. -/

structure SpaRingbuffer where
  readindex : Nat
  writeindex : Nat
deriving Repr, DecidableEq

/-- Modelled from the spec: `spa_ringbuffer_get_write_index` — returns
`filled = write_index - read_index` (signed 32-bit) and the write cursor. -/
def spa_ringbuffer_get_write_index (rb : SpaRingbuffer) : Int × Nat :=
  (i32 (u32sub rb.writeindex rb.readindex), rb.writeindex)

/-- Modelled from the spec: `spa_ringbuffer_get_read_index` — returns
`avail = write_index - read_index` (signed 32-bit) and the read cursor. -/
def spa_ringbuffer_get_read_index (rb : SpaRingbuffer) : Int × Nat :=
  (i32 (u32sub rb.writeindex rb.readindex), rb.readindex)

/-- Modelled from the spec: the byte copy of `spa_ringbuffer_write_data` —
writes the bytes of `src` into `buf` starting at `offset`, wrapping at
`size` (the C code does this with at most two `memcpy`s). -/
def ringWrite (buf : List Nat) (size offset : Nat) (src : List Nat) : List Nat :=
  match src with
  | [] => buf
  | b :: rest => ringWrite (buf.set (offset % size) b) size (offset + 1) rest

/-- Modelled from the spec: the byte copy of `spa_ringbuffer_read_data` —
reads `len` bytes out of `buf` starting at `offset`, wrapping at `size`. -/
def ringRead (buf : List Nat) (size offset len : Nat) : List Nat :=
  (List.range len).map (fun j => buf.getD ((offset + j) % size) 0)

/-! ## Delay-locked loop

Modelled from the spec: `spa/utils/dll.h` is not under `src/`.  Spec §4.3:
`init` resets the filter state, `set_bw` configures the filter
time-constant from a bandwidth, period and sample rate, and
`update(error) -> correction` runs the error through the filter and
returns a multiplicative rate correction centered at 1.0.  The exact
coefficient derivation (which uses transcendental functions in the
implementation) is abstracted to rational functions of the same inputs;
no claim depends on the coefficient values, only on when the filter is
(re)initialized and which error value is fed to `update`. -/

structure SpaDll where
  bw : ℚ := 0
  z1 : ℚ := 0
  z2 : ℚ := 0
  z3 : ℚ := 0
  w0 : ℚ := 0
  w1 : ℚ := 0
  w2 : ℚ := 0
deriving Repr, DecidableEq

/-- Modelled from the spec: `spa_dll_init` — resets the filter state. -/
def spa_dll_init (_d : SpaDll) : SpaDll := {}

/-- Modelled from the spec: `spa_dll_set_bw` — configures the filter
coefficients from bandwidth, period and sample rate. -/
def spa_dll_set_bw (d : SpaDll) (bw : ℚ) (period rate : Nat) : SpaDll :=
  let w : ℚ := bw * period / rate
  { d with bw := bw, w0 := w, w1 := w * 2, w2 := w * w }

/-- Modelled from the spec: `spa_dll_update` — second-order filter of the
occupancy error, returning a correction centered at 1.0 and the new
filter state. -/
def spa_dll_update (d : SpaDll) (err : ℚ) : ℚ × SpaDll :=
  let z1 := d.z1 + d.w0 * (d.w1 * err - d.z1)
  let z2 := d.z2 + d.w0 * (z1 - d.z2)
  let z3 := d.z3 + d.w2 * z2
  (1 - (z2 + z3), { d with z1 := z1, z2 := z2, z3 := z3 })

/-- Modelled from the spec: the minimum loop bandwidth constant
`SPA_DLL_BW_MIN` used when the receiver resynchronizes. -/
def SPA_DLL_BW_MIN : ℚ := 16 / 1000

/-! ## RTP stream state

The fields of `struct impl` of the RTP audio stream that the receive,
playback and capture paths touch.  `bufferSize` is the `BUFFER_SIZE`
constant (ring capacity in bytes, a power of two in the source, with
`BUFFER_MASK = BUFFER_SIZE - 1`); it is kept as a parameter of the state
since its definition is not under `src/`. -/

structure RateMatch where
  rate : ℚ
  active : Bool
deriving Repr, DecidableEq

structure RtpImpl where
  stride : Nat
  rate : Nat
  bufferSize : Nat
  target_buffer : Nat
  max_error : ℚ
  ts_offset : Nat
  psamples : Nat
  direct_timestamp : Bool
  io_position : Option Nat
  io_rate_match : Option RateMatch
  have_ssrc : Bool
  ssrc : Nat
  have_seq : Bool
  seq : Nat
  have_sync : Bool
  receiving : Bool
  first : Bool
  ring : SpaRingbuffer
  buffer : List Nat
  dll : SpaDll
deriving Repr, DecidableEq

/-! ## RTP header parsing

`struct rtp_header` field extraction from the raw packet bytes: `v` is the
top two bits of byte 0, `cc` the low four bits of byte 0, the sequence
number is bytes 2..3 in network byte order (`ntohs`), the timestamp bytes
4..7 (`ntohl`).  The SSRC is stored and compared in network byte order in
the source; it is modelled as the big-endian value of bytes 8..11 (only
equality of SSRCs is ever used, which is unaffected by byte order). -/

def rtp_v (pkt : List Nat) : Nat := byteAt pkt 0 / 64

def rtp_cc (pkt : List Nat) : Nat := byteAt pkt 0 % 16

def rtp_seq_nr (pkt : List Nat) : Nat := byteAt pkt 2 * 256 + byteAt pkt 3

def rtp_timestamp (pkt : List Nat) : Nat :=
  ((byteAt pkt 4 * 256 + byteAt pkt 5) * 256 + byteAt pkt 6) * 256 + byteAt pkt 7

def rtp_ssrc (pkt : List Nat) : Nat :=
  ((byteAt pkt 8 * 256 + byteAt pkt 9) * 256 + byteAt pkt 10) * 256 + byteAt pkt 11

inductive RxResult where
  | shortPacket
  | invalidVersion
  | invalidLen
  | unexpectedSsrc
  | ok
deriving Repr, DecidableEq

/-- The SSRC-adoption, sequence-check and `receiving` updates of
`receive_rtp_audio` that run after a packet passed validation
(source lines: `impl->ssrc = hdr->ssrc` … `impl->receiving = true`).
A non-contiguous sequence number clears `have_sync` but does not drop the
packet; `impl->seq` is a `uint16_t`, so `seq + 1` wraps mod 2^16. -/
def receive_validated (impl : RtpImpl) (pkt : List Nat) : RtpImpl :=
  let impl := { impl with ssrc := rtp_ssrc pkt, have_ssrc := true }
  let seq := rtp_seq_nr pkt
  let impl :=
    if impl.have_seq ∧ impl.seq ≠ seq then { impl with have_sync := false } else impl
  let impl := { impl with seq := (seq + 1) % 65536, have_seq := true }
  { impl with receiving := true }

/-- The resynchronization block of `receive_rtp_audio` (the
`if (!impl->have_sync)` body): anchor `read_index` at the packet
timestamp and `write_index` at `timestamp + target_buffer`, reinitialize
the DLL, zero the ring bytes and set `have_sync`. -/
def rtp_resync (impl : RtpImpl) (timestamp write : Nat) : RtpImpl :=
  { impl with
    ring := { readindex := timestamp, writeindex := write },
    dll := spa_dll_set_bw (spa_dll_init impl.dll) SPA_DLL_BW_MIN 128 impl.rate,
    buffer := List.replicate impl.bufferSize 0,
    have_sync := true }

/-- The sync step of `receive_rtp_audio`: resynchronize when `have_sync`
is false (after which `filled = target_buffer`), otherwise keep the state
and the current fill level.  `filled` is returned as its `uint32_t` bit
pattern (the C `int32_t` value has the same low 32 bits). -/
def receive_sync_step (impl : RtpImpl) (timestamp write : Nat) : RtpImpl × Nat :=
  if ¬ impl.have_sync then
    (rtp_resync impl timestamp write, u32 impl.target_buffer)
  else
    (impl, u32sub impl.ring.writeindex impl.ring.readindex)

/-- The post-validation body of `receive_rtp_audio`: update sequence
state, resynchronize if needed, and either drop the payload on overrun
(clearing `have_sync`) or copy it into the ring at the write cursor's
byte offset and publish the new write index.  The C comparison
`filled + samples > BUFFER_SIZE / stride` is between `uint32_t` values
(the `int32_t` `filled` is converted), hence the `u32` wrappers. -/
def receive_body (impl : RtpImpl) (pkt : List Nat) : RxResult × RtpImpl :=
  let hlen := 12 + rtp_cc pkt * 4
  let impl1 := receive_validated impl pkt
  let timestamp := u32sub (rtp_timestamp pkt) impl1.ts_offset
  let plen := pkt.length - hlen
  let samples := plen / impl1.stride
  let write := u32 (timestamp + impl1.target_buffer)
  let step := receive_sync_step impl1 timestamp write
  let impl2 := step.1
  let filled := step.2
  if u32 (filled + samples) > u32 (impl2.bufferSize / impl2.stride) then
    (.ok, { impl2 with have_sync := false })
  else
    let payload := ((pkt.drop hlen).take (samples * impl2.stride)).map (· % 256)
    let buf := ringWrite impl2.buffer impl2.bufferSize
      ((write * impl2.stride) &&& (impl2.bufferSize - 1)) payload
    (.ok, { impl2 with
            buffer := buf,
            ring := { impl2.ring with writeindex := u32 (write + samples) } })

/-- `receive_rtp_audio`: validate the packet (minimum length, RTP version
2, declared header length, SSRC identity) — dropping it untouched on any
failure — then run the post-validation body. -/
def receive_rtp_audio (impl : RtpImpl) (pkt : List Nat) : RxResult × RtpImpl :=
  if pkt.length < 12 then (.shortPacket, impl)
  else if rtp_v pkt ≠ 2 then (.invalidVersion, impl)
  else if pkt.length < 12 + rtp_cc pkt * 4 then (.invalidLen, impl)
  else if impl.have_ssrc ∧ impl.ssrc ≠ rtp_ssrc pkt then (.unexpectedSsrc, impl)
  else receive_body impl pkt

/-! ## Playback (`process_audio_playback`) -/

/-- Modelled from the spec: `SPA_CLAMP` restricted to the interval
`[lo, hi]`. -/
def spa_clamp (v lo hi : ℚ) : ℚ := max lo (min v hi)

/-- The `wanted` frame count of `process_audio_playback`:
`buf->requested ? SPA_MIN(buf->requested, maxsize) : maxsize`, where
`maxsize` has already been divided by the stride. -/
def playback_wanted (impl : RtpImpl) (requested maxsize : Nat) : Nat :=
  let maxFrames := maxsize / impl.stride
  if requested ≠ 0 then min requested maxFrames else maxFrames

/-- The direct-timestamp entry step of `process_audio_playback`: when an
I/O position is available and direct-timestamp mode is on, the read
cursor is set to the graph clock position before anything else. -/
def playback_entry (impl : RtpImpl) : RtpImpl :=
  if impl.io_position.isSome ∧ impl.direct_timestamp then
    { impl with ring := { impl.ring with readindex := u32 (impl.io_position.getD 0) } }
  else impl

/-- The first-pull / steady-state-overrun skip of `process_audio_playback`:
on the first pull after a resync, excess beyond `target_buffer` is
skipped; in steady state, occupancy beyond
`min(target_buffer * 8, BUFFER_SIZE / stride)` is skipped back to
`target_buffer`.  Returns the (possibly advanced) read timestamp, the
adjusted `avail` and the state (with `first` cleared). -/
def playback_skip (impl : RtpImpl) (timestamp : Nat) (avail : Int) :
    Nat × Int × RtpImpl :=
  if impl.first then
    if u32ofInt avail > u32 impl.target_buffer then
      (u32 (timestamp + u32sub (u32ofInt avail) impl.target_buffer),
       i32 impl.target_buffer, { impl with first := false })
    else (timestamp, avail, { impl with first := false })
  else if avail > i32 (min (u32 (impl.target_buffer * 8)) (u32 (impl.bufferSize / impl.stride))) then
    (u32 (timestamp + u32sub (u32ofInt avail) impl.target_buffer),
     i32 impl.target_buffer, impl)
  else (timestamp, avail, impl)

/-- The rate-correction step of `process_audio_playback`: skipped entirely
in direct-timestamp mode; otherwise the occupancy error
`target_buffer - avail`, clamped to `±max_error`, is fed to the DLL and
the returned correction is applied to the host rate-matching primitive
(`rate = 1/corr`, ACTIVE flag set) when one is attached. -/
def playback_dll_step (impl : RtpImpl) (avail : Int) : RtpImpl :=
  if impl.direct_timestamp then impl
  else
    let error := spa_clamp ((u32 impl.target_buffer : ℚ) - (avail : ℚ))
      (-impl.max_error) impl.max_error
    let res := spa_dll_update impl.dll error
    let impl := { impl with dll := res.2 }
    match impl.io_rate_match with
    | some _ => { impl with io_rate_match := some { rate := 1 / res.1, active := true } }
    | none => impl

structure PlaybackOut where
  out : List Nat
  wanted : Nat
deriving Repr, DecidableEq

/-- `process_audio_playback`: one playback pull.  On underrun
(`avail < wanted`) the whole requested count is silence, the read cursor
is not advanced and `have_sync` ends up false (the source only logs at a
lower severity when it already was false); otherwise the skip and DLL
steps run, `wanted` frames are copied out from the read timestamp's byte
offset and the read cursor is advanced and published. -/
def process_audio_playback (impl : RtpImpl) (requested maxsize : Nat) :
    PlaybackOut × RtpImpl :=
  let stride := impl.stride
  let wanted := playback_wanted impl requested maxsize
  let impl := playback_entry impl
  let timestamp := (spa_ringbuffer_get_read_index impl.ring).2
  let avail := (spa_ringbuffer_get_read_index impl.ring).1
  if avail < i32 (u32 wanted) then
    ({ out := List.replicate (wanted * stride) 0, wanted := wanted },
     { impl with have_sync := false })
  else
    let step := playback_skip impl timestamp avail
    let timestamp2 := step.1
    let avail2 := step.2.1
    let impl2 := playback_dll_step step.2.2 avail2
    let out := ringRead impl2.buffer impl2.bufferSize
      ((timestamp2 * stride) &&& (impl2.bufferSize - 1)) (wanted * stride)
    ({ out := out, wanted := wanted },
     { impl2 with ring := { impl2.ring with readindex := u32 (timestamp2 + wanted) } })

/-! ## Capture (`process_audio_capture`, `flush_audio_packets`) -/

structure RtpPacket where
  seq : Nat
  timestamp : Nat
  payload : List Nat
deriving Repr, DecidableEq

/-- `flush_audio_packets`: while at least `psamples` samples are resident,
emit one packet of `psamples` samples from the read cursor (sequence
number incrementing mod 2^16, timestamp `ts_offset + read cursor`) and
advance; finally publish the read cursor.  The C `while` loop is modelled
in closed form by its iteration count `avail / tosend` (the degenerate
`psamples = 0` configuration, which would not terminate in C, emits
nothing). -/
def flush_audio_packets (impl : RtpImpl) : List RtpPacket × RtpImpl :=
  let avail := (spa_ringbuffer_get_read_index impl.ring).1
  let timestamp := (spa_ringbuffer_get_read_index impl.ring).2
  let tosend := i32 (u32 impl.psamples)
  if avail < tosend then ([], impl)
  else if tosend ≤ 0 then ([], impl)
  else
    let k := avail.toNat / tosend.toNat
    let pkts := (List.range k).map (fun i =>
      { seq := (impl.seq + i) % 65536,
        timestamp := u32 (impl.ts_offset + timestamp + i * tosend.toNat),
        payload := ringRead impl.buffer impl.bufferSize
          (((timestamp + i * tosend.toNat) * impl.stride) &&& (impl.bufferSize - 1))
          (tosend.toNat * impl.stride) : RtpPacket })
    (pkts, { impl with
             seq := (impl.seq + k) % 65536,
             ring := { impl.ring with readindex := u32 (timestamp + k * tosend.toNat) } })

/-- The sync-and-write part of `process_audio_capture` (everything before
the packet flush): take the cycle timestamp from the graph clock when an
I/O position is attached (else the expected write index), drop sync on a
timestamp mismatch or a would-be overrun, re-anchor both cursors at the
timestamp with a zeroed ring whenever sync is absent, and then always
write the cycle's samples at the timestamp offset and publish
`timestamp + wanted`. -/
def process_capture_fill (impl : RtpImpl) (input : List Nat) : RtpImpl :=
  let stride := impl.stride
  let wanted := input.length / stride
  let filled := (spa_ringbuffer_get_write_index impl.ring).1
  let expected := (spa_ringbuffer_get_write_index impl.ring).2
  let timestamp := u32 (match impl.io_position with | some p => p | none => expected)
  let impl :=
    if impl.have_sync then
      if expected ≠ timestamp then { impl with have_sync := false }
      else if filled + i32 (u32 wanted) > i32 (impl.bufferSize / stride) then
        { impl with have_sync := false }
      else impl
    else impl
  let impl :=
    if ¬ impl.have_sync then
      { impl with
        ring := { readindex := timestamp, writeindex := timestamp },
        buffer := List.replicate impl.bufferSize 0,
        have_sync := true }
    else impl
  let payload := (input.take (wanted * stride)).map (· % 256)
  let buf := ringWrite impl.buffer impl.bufferSize
    ((timestamp * stride) &&& (impl.bufferSize - 1)) payload
  { impl with buffer := buf, ring := { impl.ring with writeindex := u32 (timestamp + wanted) } }

/-- `process_audio_capture`: the sync-and-write part followed by the
packet flush. -/
def process_audio_capture (impl : RtpImpl) (input : List Nat) :
    List RtpPacket × RtpImpl :=
  flush_audio_packets (process_capture_fill impl input)

/-! ## Sine-source example node (`port_set_format`, buffer reuse)

Only the fields the modelled operations touch are kept: the negotiated
raw audio format and the `empty` (Free) list, modelled as the list of
buffer ids whose links are on `d->empty`.  The dynamically-mapped type
ids are modelled as fixed distinct constants. -/

def mediaTypeAudio : Nat := 1
def mediaSubtypeRaw : Nat := 2
def audioFormatS16 : Nat := 3
def audioFormatS32 : Nat := 5

structure SpaAudioInfoRaw where
  format : Nat
  channels : Nat
  rate : Nat
deriving Repr, DecidableEq

structure PodAudioFormat where
  media_type : Nat
  media_subtype : Nat
  info : SpaAudioInfoRaw
deriving Repr, DecidableEq

/-- Modelled from the spec: `spa_format_audio_raw_parse` (spa
format-utils, not under `src/`) — succeeds iff the proposed object is an
audio/raw format, writing the parsed fields into the destination; on
failure the destination is returned unchanged. -/
def spa_format_audio_raw_parse (f : PodAudioFormat) (dst : SpaAudioInfoRaw) :
    Int × SpaAudioInfoRaw :=
  if f.media_type = mediaTypeAudio ∧ f.media_subtype = mediaSubtypeRaw then (0, f.info)
  else (-22, dst)

structure SineData where
  format : SpaAudioInfoRaw
  empty : List Nat
deriving Repr, DecidableEq

/-- `port_set_format` of the sine-source node: `NULL` clears the format
(`d->format.format = 0`); otherwise the proposal is parsed directly into
`d->format` and only then validated against S16, so a parsable non-S16
proposal overwrites the stored format before the `-EINVAL` return. -/
def port_set_format (d : SineData) (format : Option PodAudioFormat) : Int × SineData :=
  match format with
  | none => (0, { d with format := { d.format with format := 0 } })
  | some f =>
    let parsed := spa_format_audio_raw_parse f d.format
    if parsed.1 < 0 then (-22, d)
    else
      let d1 : SineData := { d with format := parsed.2 }
      if d1.format.format ≠ audioFormatS16 then (-22, d1)
      else (0, d1)

/-- `reuse_buffer` of the sine-source: unconditionally appends the
buffer's link to the `empty` (Free) list. -/
def reuse_buffer (d : SineData) (id : Nat) : SineData :=
  { d with empty := d.empty ++ [id] }

/-- `impl_port_reuse_buffer`: delegates to `reuse_buffer` and returns 0;
the port id is unused. -/
def impl_port_reuse_buffer (d : SineData) (_port_id buffer_id : Nat) : Int × SineData :=
  (0, reuse_buffer d buffer_id)

/-! ## v4l2 buffer recycle -/

structure V4l2Buffer where
  outstanding : Bool
deriving Repr, DecidableEq

structure V4l2Port where
  buffers : List V4l2Buffer
  queued : List Nat
deriving Repr, DecidableEq

/-- `spa_v4l2_buffer_recycle`: a buffer whose OUTSTANDING flag is already
clear is left alone (return 0); otherwise the flag is cleared and the
buffer is queued back to the driver (`VIDIOC_QBUF`, modelled as appending
its id to the driver queue; the ioctl error path is outside the model). -/
def spa_v4l2_buffer_recycle (p : V4l2Port) (buffer_id : Nat) : Int × V4l2Port :=
  let b := p.buffers.getD buffer_id { outstanding := false }
  if ¬ b.outstanding then (0, p)
  else (0, { buffers := p.buffers.set buffer_id { b with outstanding := false },
             queued := p.queued ++ [buffer_id] })

/-! ## Concrete states and packets for witnesses -/

/-- Build an RTP packet byte list: version 2, no padding/extension/CSRC,
sequence `seq`, timestamp `ts`, SSRC `ssrc`, followed by the payload. -/
def mkRtpPacket (seq ts ssrc : Nat) (payload : List Nat) : List Nat :=
  [128, 96, seq / 256 % 256, seq % 256,
   ts / 16777216 % 256, ts / 65536 % 256, ts / 256 % 256, ts % 256,
   ssrc / 16777216 % 256, ssrc / 65536 % 256, ssrc / 256 % 256, ssrc % 256] ++ payload

/-- The spec §8 scenario state: ring capacity 4096 samples (stride 1),
`target_occupancy = 512`, no sync yet, zero timestamp offset. -/
def demoImpl : RtpImpl where
  stride := 1
  rate := 48000
  bufferSize := 4096
  target_buffer := 512
  max_error := 256
  ts_offset := 0
  psamples := 64
  direct_timestamp := false
  io_position := none
  io_rate_match := none
  have_ssrc := false
  ssrc := 0
  have_seq := false
  seq := 0
  have_sync := false
  receiving := false
  first := true
  ring := { readindex := 0, writeindex := 0 }
  buffer := List.replicate 4096 0
  dll := {}

/-- A small-ring state (capacity 16 bytes, stride 1, target 8) for
concrete counterexamples where the ring bytes must be evaluated. -/
def smallImpl : RtpImpl where
  stride := 1
  rate := 48000
  bufferSize := 16
  target_buffer := 8
  max_error := 4
  ts_offset := 0
  psamples := 4
  direct_timestamp := false
  io_position := none
  io_rate_match := none
  have_ssrc := true
  ssrc := 9
  have_seq := true
  seq := 5
  have_sync := true
  receiving := true
  first := false
  ring := { readindex := 100, writeindex := 108 }
  buffer := List.replicate 16 0
  dll := {}

/-- The spec §8 scenario packet: sequence 0, timestamp 1000, SSRC 9,
1024 payload samples. -/
def c5pkt : List Nat := mkRtpPacket 0 1000 9 (List.replicate 1024 7)

/-- The state after the spec §8 scenario's first packet is received. -/
def c5recv : RtpImpl := (receive_rtp_audio demoImpl c5pkt).2

/-- A sine-source state with format S16 negotiated and buffer 0 already
on the Free list. -/
def demoSine : SineData where
  format := { format := audioFormatS16, channels := 2, rate := 44100 }
  empty := [0]

/-- A steady-state playback configuration: 8 samples resident, rate
matching attached, not the first pull, not in direct-timestamp mode. -/
def demo9 : RtpImpl :=
  { demoImpl with
    ring := ({ readindex := 0, writeindex := 8 } : SpaRingbuffer),
    first := false,
    io_rate_match := some { rate := 1, active := false } }

/-- A capture-side state driven by a graph clock at position 200, with
sync not yet established. -/
def demoCapture : RtpImpl :=
  { smallImpl with io_position := some 200, have_sync := false }

/-! ## Helper lemmas -/

/-- A first playback pull (`first = true`, stride 1, target 512, no I/O
position, cursors 1000/2536) skips the excess over the target and ends
with the read cursor at `2024 + r` for any requested count `r ≤ 1536`. -/
lemma playback_pull_first_skip (s : RtpImpl) (r : Nat)
    (hfst : s.first = true)
    (hstr : s.stride = 1)
    (htgt : s.target_buffer = 512)
    (hiop : s.io_position = none)
    (hring : s.ring = { readindex := 1000, writeindex := 2536 })
    (hr1 : 1 ≤ r) (hr2 : r ≤ 1536) :
    (process_audio_playback s r 4096).2.ring.readindex = u32 (2024 + r) := by
  have hentry : playback_entry s = s := by
    unfold playback_entry
    rw [if_neg]
    rw [hiop]
    simp
  have hwant : playback_wanted s r 4096 = r := by
    unfold playback_wanted
    rw [hstr, if_pos (by omega : r ≠ 0)]
    simp only [Nat.div_one]
    exact Nat.min_eq_left (by omega)
  have hget1 : (spa_ringbuffer_get_read_index
      { readindex := 1000, writeindex := 2536 }).1 = 1536 := by decide
  have hget2 : (spa_ringbuffer_get_read_index
      { readindex := 1000, writeindex := 2536 }).2 = 1000 := by decide
  have hr32 : i32 (u32 r) = (r : Int) := by
    unfold i32 u32
    rw [Nat.mod_eq_of_lt (by omega), Nat.mod_eq_of_lt (by omega), if_pos (by omega)]
  have hsk : (playback_skip s 1000 1536).1 = 2024 := by
    unfold playback_skip
    rw [if_pos hfst, if_pos (by rw [htgt]; decide)]
    dsimp only
    rw [htgt]
    decide
  unfold process_audio_playback
  dsimp only
  rw [hentry, hwant, hring, hget1, hget2, hr32]
  rw [if_neg (by omega : ¬ ((1536 : Int) < (r : Int)))]
  dsimp only
  rw [hsk]

/-- A packet that passes all four validation checks reaches the
post-validation body. -/
lemma receive_rtp_audio_eq_body (s : RtpImpl) (pkt : List Nat)
    (h1 : ¬ pkt.length < 12) (h2 : rtp_v pkt = 2)
    (h3 : ¬ pkt.length < 12 + rtp_cc pkt * 4)
    (h4 : ¬ (s.have_ssrc ∧ s.ssrc ≠ rtp_ssrc pkt)) :
    receive_rtp_audio s pkt = receive_body s pkt := by
  simp [receive_rtp_audio, h1, h2, h3, h4]

/-- Closed form of the post-validation sequence/SSRC bookkeeping. -/
lemma receive_validated_eq (s : RtpImpl) (pkt : List Nat) :
    receive_validated s pkt =
      { s with ssrc := rtp_ssrc pkt, have_ssrc := true,
               seq := (rtp_seq_nr pkt + 1) % 65536, have_seq := true,
               receiving := true,
               have_sync :=
                 if s.have_seq ∧ s.seq ≠ rtp_seq_nr pkt then false else s.have_sync } := by
  unfold receive_validated
  dsimp only
  split
  · simp_all
  · simp_all

/-- Claim C1: for every inbound RTP packet that passes validation while
`have_sync` is false, the receive handler performs a resynchronization
whose postcondition is exactly: `read_index` equals the packet's
offset-adjusted timestamp, `write_index` equals `timestamp +
target_occupancy`, every ring byte is zero, the DLL is reinitialized to
its initial state, and `have_sync` is true (moreover the handler accepts
the packet and never moves the read cursor afterwards). -/
theorem C1_resync_postcondition (s : RtpImpl) (pkt : List Nat)
    (h1 : 12 ≤ pkt.length) (h2 : rtp_v pkt = 2)
    (h3 : 12 + rtp_cc pkt * 4 ≤ pkt.length)
    (h4 : ¬ (s.have_ssrc ∧ s.ssrc ≠ rtp_ssrc pkt))
    (h5 : s.have_sync = false) :
    let ts := u32sub (rtp_timestamp pkt) s.ts_offset
    let w := u32 (ts + s.target_buffer)
    let s2 := (receive_sync_step (receive_validated s pkt) ts w).1
    s2.ring.readindex = ts ∧
    s2.ring.writeindex = w ∧
    s2.buffer = List.replicate s.bufferSize 0 ∧
    s2.dll = spa_dll_set_bw (spa_dll_init s.dll) SPA_DLL_BW_MIN 128 s.rate ∧
    s2.have_sync = true ∧
    (receive_rtp_audio s pkt).1 = RxResult.ok ∧
    (receive_rtp_audio s pkt).2.ring.readindex = ts := by
  intro ts w s2
  have hval : (receive_validated s pkt).have_sync = false := by
    rw [receive_validated_eq]
    dsimp only
    split <;> simp [h5]
  have hs2 : s2 = rtp_resync (receive_validated s pkt) ts w := by
    show (receive_sync_step (receive_validated s pkt) ts w).1 = _
    rw [receive_sync_step, if_pos]
    simp [hval]
  have hbody : receive_rtp_audio s pkt = receive_body s pkt :=
    receive_rtp_audio_eq_body s pkt (by omega) h2 (by omega) h4
  refine ⟨?_, ?_, ?_, ?_, ?_, ?_, ?_⟩
  · rw [hs2]; rfl
  · rw [hs2]; rfl
  · rw [hs2]
    show List.replicate (receive_validated s pkt).bufferSize 0 = _
    rw [receive_validated_eq]
  · rw [hs2]
    show spa_dll_set_bw (spa_dll_init (receive_validated s pkt).dll) SPA_DLL_BW_MIN 128
        (receive_validated s pkt).rate = _
    rw [receive_validated_eq]
  · rw [hs2]; rfl
  · rw [hbody]
    unfold receive_body
    dsimp only
    split <;> rfl
  · rw [hbody]
    unfold receive_body
    dsimp only
    have hstep : (receive_sync_step (receive_validated s pkt)
        (u32sub (rtp_timestamp pkt) (receive_validated s pkt).ts_offset)
        (u32 (u32sub (rtp_timestamp pkt) (receive_validated s pkt).ts_offset +
          (receive_validated s pkt).target_buffer))).1.ring.readindex =
        u32sub (rtp_timestamp pkt) (receive_validated s pkt).ts_offset := by
      rw [receive_sync_step, if_pos]
      · rfl
      · simp [hval]
    split
    · show (receive_sync_step _ _ _).1.ring.readindex = ts
      rw [hstep, receive_validated_eq]
    · show (receive_sync_step _ _ _).1.ring.readindex = ts
      rw [hstep, receive_validated_eq]

/-- Witness for C1 at a concrete state and packet. -/
theorem C1_resync_postcondition_witness :
    demoImpl.have_sync = false ∧
    (let ts := u32sub (rtp_timestamp (mkRtpPacket 7 1000 9 [1, 2, 3, 4])) demoImpl.ts_offset
     let w := u32 (ts + demoImpl.target_buffer)
     let s2 := (receive_sync_step
       (receive_validated demoImpl (mkRtpPacket 7 1000 9 [1, 2, 3, 4])) ts w).1
     s2.ring.readindex = ts ∧
     s2.ring.writeindex = w ∧
     s2.buffer = List.replicate demoImpl.bufferSize 0 ∧
     s2.dll = spa_dll_set_bw (spa_dll_init demoImpl.dll) SPA_DLL_BW_MIN 128 demoImpl.rate ∧
     s2.have_sync = true ∧
     (receive_rtp_audio demoImpl (mkRtpPacket 7 1000 9 [1, 2, 3, 4])).1 = RxResult.ok ∧
     (receive_rtp_audio demoImpl (mkRtpPacket 7 1000 9 [1, 2, 3, 4])).2.ring.readindex = ts) :=
  ⟨rfl, C1_resync_postcondition demoImpl (mkRtpPacket 7 1000 9 [1, 2, 3, 4])
    (by decide) (by decide) (by decide) (by decide) rfl⟩

/-- Claim C8: every packet failing validation — shorter than 12 bytes,
version ≠ 2, declared header length exceeding the packet, or an SSRC
differing from the adopted one — is dropped with the entire stream state
(`have_sync`, sequence, SSRC, ring cursors and contents) unchanged. -/
theorem C8_malformed_packet_dropped (s : RtpImpl) (pkt : List Nat)
    (h : pkt.length < 12 ∨ rtp_v pkt ≠ 2 ∨ pkt.length < 12 + rtp_cc pkt * 4 ∨
      (s.have_ssrc ∧ s.ssrc ≠ rtp_ssrc pkt)) :
    (receive_rtp_audio s pkt).2 = s ∧ (receive_rtp_audio s pkt).1 ≠ RxResult.ok := by
  unfold receive_rtp_audio
  by_cases c1 : pkt.length < 12
  · simp [c1]
  · by_cases c2 : rtp_v pkt ≠ 2
    · simp [c1, c2]
    · by_cases c3 : pkt.length < 12 + rtp_cc pkt * 4
      · simp [c1, c2, c3]
      · by_cases c4 : s.have_ssrc ∧ s.ssrc ≠ rtp_ssrc pkt
        · simp [c1, c2, c3, c4]
        · exact absurd h (by tauto)

/-- Witness for C8: a 3-byte packet is dropped without touching the
state. -/
theorem C8_malformed_packet_dropped_witness :
    (([1] : List Nat).length < 12 ∨ rtp_v [1] ≠ 2 ∨
      ([1] : List Nat).length < 12 + rtp_cc [1] * 4 ∨
      (demoImpl.have_ssrc ∧ demoImpl.ssrc ≠ rtp_ssrc [1])) ∧
    ((receive_rtp_audio demoImpl [1]).2 = demoImpl ∧
     (receive_rtp_audio demoImpl [1]).1 ≠ RxResult.ok) :=
  ⟨by decide, C8_malformed_packet_dropped demoImpl [1] (by decide)⟩

/-- Claim C7: an inbound packet processed in steady state (sync held,
sequence contiguous) whose sample count plus the current fill level would
exceed the ring capacity writes nothing: the ring bytes and both cursors
are unchanged and `have_sync` is cleared so the next packet resyncs. -/
theorem C7_steady_state_overrun_drop (s : RtpImpl) (pkt : List Nat)
    (h1 : 12 ≤ pkt.length) (h2 : rtp_v pkt = 2)
    (h3 : 12 + rtp_cc pkt * 4 ≤ pkt.length)
    (h4 : ¬ (s.have_ssrc ∧ s.ssrc ≠ rtp_ssrc pkt))
    (h5 : s.have_sync = true)
    (h6 : ¬ (s.have_seq ∧ s.seq ≠ rtp_seq_nr pkt))
    (h7 : u32 (u32sub s.ring.writeindex s.ring.readindex +
      (pkt.length - (12 + rtp_cc pkt * 4)) / s.stride) > u32 (s.bufferSize / s.stride)) :
    (receive_rtp_audio s pkt).2.buffer = s.buffer ∧
    (receive_rtp_audio s pkt).2.ring = s.ring ∧
    (receive_rtp_audio s pkt).2.have_sync = false := by
  rw [receive_rtp_audio_eq_body s pkt (by omega) h2 (by omega) h4]
  unfold receive_body receive_sync_step
  rw [receive_validated_eq]
  simp [h5, eq_false h6, eq_true h7]

/-- Witness for C7: the small ring is 8 samples full; a 12-sample packet
with the expected sequence number overruns it. -/
theorem C7_steady_state_overrun_drop_witness :
    smallImpl.have_sync = true ∧
    u32 (u32sub smallImpl.ring.writeindex smallImpl.ring.readindex +
      ((mkRtpPacket 5 108 9 (List.replicate 12 7)).length -
        (12 + rtp_cc (mkRtpPacket 5 108 9 (List.replicate 12 7)) * 4)) / smallImpl.stride) >
      u32 (smallImpl.bufferSize / smallImpl.stride) ∧
    ((receive_rtp_audio smallImpl (mkRtpPacket 5 108 9 (List.replicate 12 7))).2.buffer =
        smallImpl.buffer ∧
     (receive_rtp_audio smallImpl (mkRtpPacket 5 108 9 (List.replicate 12 7))).2.ring =
        smallImpl.ring ∧
     (receive_rtp_audio smallImpl (mkRtpPacket 5 108 9 (List.replicate 12 7))).2.have_sync =
        false) :=
  ⟨rfl, by decide,
   C7_steady_state_overrun_drop smallImpl (mkRtpPacket 5 108 9 (List.replicate 12 7))
     (by decide) (by decide) (by decide) (by decide) rfl (by decide) (by decide)⟩

/-- Counterexample to claim C4 as stated: a packet whose sequence number
is not the expected successor (expected 5, received 9) passes validation
and forces a resync, but because its 12 samples plus the re-anchored
`target_buffer = 8` fill exceed the 16-sample capacity, its nonzero
payload is NOT written into the ring (every ring byte stays zero and the
write cursor stays at the resync anchor), contradicting "its payload is
still written into the ring". -/
theorem C4_counterexample :
    smallImpl.have_seq = true ∧
    smallImpl.seq ≠ rtp_seq_nr (mkRtpPacket 9 100 9 (List.replicate 12 7)) ∧
    (receive_rtp_audio smallImpl (mkRtpPacket 9 100 9 (List.replicate 12 7))).1 =
      RxResult.ok ∧
    (mkRtpPacket 9 100 9 (List.replicate 12 7)).drop 12 ≠ List.replicate 12 0 ∧
    (receive_rtp_audio smallImpl (mkRtpPacket 9 100 9 (List.replicate 12 7))).2.buffer =
      List.replicate 16 0 ∧
    (receive_rtp_audio smallImpl (mkRtpPacket 9 100 9 (List.replicate 12 7))).2.ring.writeindex =
      108 ∧
    (receive_rtp_audio smallImpl (mkRtpPacket 9 100 9 (List.replicate 12 7))).2.have_sync =
      false := by
  decide

/-- Claim C4 (amended): a packet with a non-contiguous sequence number is
not dropped — `have_sync` is cleared and the expected sequence is reset
to the received sequence plus one, the packet triggers a full
resynchronization with zeroed ring contents, and, provided
`target_occupancy` plus the packet's sample count does not exceed the
ring capacity (otherwise the overrun rule drops the payload), its payload
is written into the ring. -/
theorem C4_seq_gap_resync (s : RtpImpl) (pkt : List Nat)
    (h1 : 12 ≤ pkt.length) (h2 : rtp_v pkt = 2)
    (h3 : 12 + rtp_cc pkt * 4 ≤ pkt.length)
    (h4 : ¬ (s.have_ssrc ∧ s.ssrc ≠ rtp_ssrc pkt))
    (h5 : s.have_seq = true) (h6 : s.seq ≠ rtp_seq_nr pkt)
    (h7 : ¬ (u32 (u32 s.target_buffer + (pkt.length - (12 + rtp_cc pkt * 4)) / s.stride) >
      u32 (s.bufferSize / s.stride))) :
    let ts := u32sub (rtp_timestamp pkt) s.ts_offset
    let w := u32 (ts + s.target_buffer)
    let samples := (pkt.length - (12 + rtp_cc pkt * 4)) / s.stride
    (receive_rtp_audio s pkt).1 = RxResult.ok ∧
    (receive_rtp_audio s pkt).2.seq = (rtp_seq_nr pkt + 1) % 65536 ∧
    (receive_rtp_audio s pkt).2.have_sync = true ∧
    (receive_rtp_audio s pkt).2.ring.readindex = ts ∧
    (receive_rtp_audio s pkt).2.ring.writeindex = u32 (w + samples) ∧
    (receive_rtp_audio s pkt).2.buffer =
      ringWrite (List.replicate s.bufferSize 0) s.bufferSize
        ((w * s.stride) &&& (s.bufferSize - 1))
        (((pkt.drop (12 + rtp_cc pkt * 4)).take (samples * s.stride)).map (· % 256)) := by
  rw [receive_rtp_audio_eq_body s pkt (by omega) h2 (by omega) h4]
  unfold receive_body receive_sync_step
  rw [receive_validated_eq]
  simp [eq_true (And.intro h5 h6), eq_false h7, rtp_resync]

/-- Witness for C4 (amended) at a concrete state and gap packet that
fits in the ring. -/
theorem C4_seq_gap_resync_witness :
    smallImpl.seq ≠ rtp_seq_nr (mkRtpPacket 9 200 9 [1, 2, 3, 4]) ∧
    (let ts := u32sub (rtp_timestamp (mkRtpPacket 9 200 9 [1, 2, 3, 4])) smallImpl.ts_offset
     let w := u32 (ts + smallImpl.target_buffer)
     let samples := ((mkRtpPacket 9 200 9 [1, 2, 3, 4]).length -
       (12 + rtp_cc (mkRtpPacket 9 200 9 [1, 2, 3, 4]) * 4)) / smallImpl.stride
     (receive_rtp_audio smallImpl (mkRtpPacket 9 200 9 [1, 2, 3, 4])).1 = RxResult.ok ∧
     (receive_rtp_audio smallImpl (mkRtpPacket 9 200 9 [1, 2, 3, 4])).2.seq =
       (rtp_seq_nr (mkRtpPacket 9 200 9 [1, 2, 3, 4]) + 1) % 65536 ∧
     (receive_rtp_audio smallImpl (mkRtpPacket 9 200 9 [1, 2, 3, 4])).2.have_sync = true ∧
     (receive_rtp_audio smallImpl (mkRtpPacket 9 200 9 [1, 2, 3, 4])).2.ring.readindex = ts ∧
     (receive_rtp_audio smallImpl (mkRtpPacket 9 200 9 [1, 2, 3, 4])).2.ring.writeindex =
       u32 (w + samples) ∧
     (receive_rtp_audio smallImpl (mkRtpPacket 9 200 9 [1, 2, 3, 4])).2.buffer =
       ringWrite (List.replicate smallImpl.bufferSize 0) smallImpl.bufferSize
         ((w * smallImpl.stride) &&& (smallImpl.bufferSize - 1))
         ((((mkRtpPacket 9 200 9 [1, 2, 3, 4]).drop
             (12 + rtp_cc (mkRtpPacket 9 200 9 [1, 2, 3, 4]) * 4)).take
           (samples * smallImpl.stride)).map (· % 256))) :=
  ⟨by decide, C4_seq_gap_resync smallImpl (mkRtpPacket 9 200 9 [1, 2, 3, 4])
    (by decide) (by decide) (by decide) (by decide) rfl (by decide) (by decide)⟩

set_option maxRecDepth 40000

/-- Claim C5: with ring capacity 4096 samples and `target_occupancy` 512,
a first packet of 1024 samples at timestamp 1000 (no prior sync, zero
offset) resyncs to `read_index = 1000`, `write_index = 1512`; after the
payload write the write cursor is 2536, and the first playback pull skips
1024 samples forward to 2024 — 512 samples into the 1024-sample payload
that starts at 1512 — leaving exactly 512 samples resident when reading
begins (any requested count `r ≤ 1536` avoids underrun). -/
theorem C5_first_packet_scenario (r : Nat) (hr1 : 1 ≤ r) (hr2 : r ≤ 1536) :
    (receive_sync_step (receive_validated demoImpl c5pkt)
        (u32sub (rtp_timestamp c5pkt) demoImpl.ts_offset)
        (u32 (u32sub (rtp_timestamp c5pkt) demoImpl.ts_offset +
          demoImpl.target_buffer))).1.ring.readindex = 1000 ∧
    (receive_sync_step (receive_validated demoImpl c5pkt)
        (u32sub (rtp_timestamp c5pkt) demoImpl.ts_offset)
        (u32 (u32sub (rtp_timestamp c5pkt) demoImpl.ts_offset +
          demoImpl.target_buffer))).1.ring.writeindex = 1512 ∧
    c5recv.ring.readindex = 1000 ∧
    c5recv.ring.writeindex = 2536 ∧
    (playback_skip c5recv 1000 1536).1 = 2024 ∧
    (playback_skip c5recv 1000 1536).2.1 = 512 ∧
    (process_audio_playback c5recv r 4096).2.ring.readindex = u32 (2024 + r) ∧
    u32sub c5recv.ring.writeindex 2024 = 512 := by
  refine ⟨by decide, by decide, by decide, by decide, by decide, by decide, ?_, by decide⟩
  exact playback_pull_first_skip c5recv r (by decide) (by decide) (by decide) (by decide)
    (by decide) hr1 hr2

/-- Witness for C5 at requested count `r = 512`. -/
theorem C5_first_packet_scenario_witness :
    1 ≤ 512 ∧
    ((receive_sync_step (receive_validated demoImpl c5pkt)
        (u32sub (rtp_timestamp c5pkt) demoImpl.ts_offset)
        (u32 (u32sub (rtp_timestamp c5pkt) demoImpl.ts_offset +
          demoImpl.target_buffer))).1.ring.readindex = 1000 ∧
     (receive_sync_step (receive_validated demoImpl c5pkt)
        (u32sub (rtp_timestamp c5pkt) demoImpl.ts_offset)
        (u32 (u32sub (rtp_timestamp c5pkt) demoImpl.ts_offset +
          demoImpl.target_buffer))).1.ring.writeindex = 1512 ∧
     c5recv.ring.readindex = 1000 ∧
     c5recv.ring.writeindex = 2536 ∧
     (playback_skip c5recv 1000 1536).1 = 2024 ∧
     (playback_skip c5recv 1000 1536).2.1 = 512 ∧
     (process_audio_playback c5recv 512 4096).2.ring.readindex = u32 (2024 + 512) ∧
     u32sub c5recv.ring.writeindex 2024 = 512) :=
  ⟨by decide, C5_first_packet_scenario 512 (by decide) (by decide)⟩

/-- Counterexample to claim C2 as stated: in the sine-source node, buffer
0 is already on the Free list, yet `impl_port_reuse_buffer` returns 0 and
appends it again — the Free list changes, and calling it twice in a row
differs from calling it once. -/
theorem C2_counterexample :
    0 ∈ demoSine.empty ∧
    (impl_port_reuse_buffer demoSine 0 0).1 = 0 ∧
    (impl_port_reuse_buffer demoSine 0 0).2.empty ≠ demoSine.empty ∧
    (impl_port_reuse_buffer (impl_port_reuse_buffer demoSine 0 0).2 0 0).2.empty ≠
      (impl_port_reuse_buffer demoSine 0 0).2.empty := by
  decide

/-- Claim C2 (amended): the v4l2 buffer recycle is idempotent-safe —
called on a buffer whose OUTSTANDING flag is already clear it is a no-op
returning 0, so calling it twice in a row equals calling it once; the
sine-source example's `impl_port_reuse_buffer`, by contrast, returns 0
but unconditionally appends the buffer id to the Free list, so for it an
already-Free buffer is appended a second time. -/
theorem C2_recycle_idempotent (p : V4l2Port) (id : Nat)
    (hfree : (p.buffers.getD id { outstanding := false }).outstanding = false) :
    spa_v4l2_buffer_recycle p id = (0, p) ∧
    spa_v4l2_buffer_recycle (spa_v4l2_buffer_recycle p id).2 id =
      spa_v4l2_buffer_recycle p id := by
  have hb : ¬ ((p.buffers.getD id { outstanding := false }).outstanding = true) := by
    rw [hfree]
    decide
  have h1 : spa_v4l2_buffer_recycle p id = (0, p) := by
    unfold spa_v4l2_buffer_recycle
    rw [if_pos hb]
  exact ⟨h1, by rw [h1, h1]⟩

/-- Witness for C2 (amended) at a two-buffer port whose buffer 0 is not
outstanding. -/
theorem C2_recycle_idempotent_witness :
    ((({ buffers := [{ outstanding := false }, { outstanding := true }],
         queued := [] } : V4l2Port).buffers.getD 0
       { outstanding := false }).outstanding = false) ∧
    (spa_v4l2_buffer_recycle
        { buffers := [{ outstanding := false }, { outstanding := true }], queued := [] } 0 =
      (0, { buffers := [{ outstanding := false }, { outstanding := true }], queued := [] }) ∧
     spa_v4l2_buffer_recycle
        (spa_v4l2_buffer_recycle
          { buffers := [{ outstanding := false }, { outstanding := true }], queued := [] } 0).2 0 =
      spa_v4l2_buffer_recycle
        { buffers := [{ outstanding := false }, { outstanding := true }], queued := [] } 0) :=
  ⟨by decide, C2_recycle_idempotent
    { buffers := [{ outstanding := false }, { outstanding := true }], queued := [] } 0
    (by decide)⟩

/-- Counterexample to claim C3 as stated: with S16 already negotiated,
proposing a parsable audio/raw S32 format makes `port_set_format` return
`-EINVAL` — but the port's stored format has been overwritten with the
parsed S32 values, so the prior format is not preserved. -/
theorem C3_counterexample :
    demoSine.format.format = audioFormatS16 ∧
    (port_set_format demoSine (some
      { media_type := mediaTypeAudio, media_subtype := mediaSubtypeRaw,
        info := { format := audioFormatS32, channels := 2, rate := 48000 } })).1 = -22 ∧
    (port_set_format demoSine (some
      { media_type := mediaTypeAudio, media_subtype := mediaSubtypeRaw,
        info := { format := audioFormatS32, channels := 2, rate := 48000 } })).2.format ≠
      demoSine.format := by
  decide

/-- Claim C3 (amended): negotiating an unsupported format fails with
`-EINVAL`, but when the proposal parses as an audio/raw format whose
sample format is not S16, the parsed values are written into the port's
stored format before the failing return, so the prior format (or
"unset") is not preserved in that case. -/
theorem C3_set_format_invalid (d : SineData) (f : PodAudioFormat)
    (hmt : f.media_type = mediaTypeAudio)
    (hms : f.media_subtype = mediaSubtypeRaw)
    (hfmt : f.info.format ≠ audioFormatS16) :
    port_set_format d (some f) = (-22, { d with format := f.info }) := by
  have hp : spa_format_audio_raw_parse f d.format = (0, f.info) := by
    unfold spa_format_audio_raw_parse
    rw [if_pos (And.intro hmt hms)]
  have hu : port_set_format d (some f) =
      (if (spa_format_audio_raw_parse f d.format).1 < 0 then (-22, d)
       else
         if ({ d with format := (spa_format_audio_raw_parse f d.format).2 } :
             SineData).format.format ≠ audioFormatS16 then
           (-22, { d with format := (spa_format_audio_raw_parse f d.format).2 })
         else (0, { d with format := (spa_format_audio_raw_parse f d.format).2 })) := rfl
  rw [hu, hp]
  dsimp only
  rw [if_neg (by omega : ¬ ((0 : Int) < 0)), if_pos hfmt]

/-- Witness for C3 (amended): proposing audio/raw S32 to the S16-only
sine source. -/
theorem C3_set_format_invalid_witness :
    ({ media_type := mediaTypeAudio, media_subtype := mediaSubtypeRaw,
       info := { format := audioFormatS32, channels := 2, rate := 48000 } :
        PodAudioFormat }).info.format ≠ audioFormatS16 ∧
    port_set_format demoSine (some
      { media_type := mediaTypeAudio, media_subtype := mediaSubtypeRaw,
        info := { format := audioFormatS32, channels := 2, rate := 48000 } }) =
      (-22, { demoSine with
              format := { format := audioFormatS32, channels := 2, rate := 48000 } }) :=
  ⟨by decide, C3_set_format_invalid demoSine
    { media_type := mediaTypeAudio, media_subtype := mediaSubtypeRaw,
      info := { format := audioFormatS32, channels := 2, rate := 48000 } }
    rfl rfl (by decide)⟩

/-- Claim C6: a playback pull with fewer available samples than requested
(underrun) emits silence for the entire requested count, does not advance
the read cursor, and leaves sync flagged as lost; the consumer never
receives partial data in this case.  (In direct-timestamp mode the entry
step has already repositioned the cursor to the graph clock; the underrun
branch itself never advances it, and without direct mode the cursor is
exactly the pull's initial one.) -/
theorem C6_underrun_silence (s : RtpImpl) (requested maxsize : Nat)
    (hu : (spa_ringbuffer_get_read_index (playback_entry s).ring).1 <
      i32 (u32 (playback_wanted s requested maxsize))) :
    (process_audio_playback s requested maxsize).1.out =
      List.replicate (playback_wanted s requested maxsize * s.stride) 0 ∧
    (process_audio_playback s requested maxsize).1.wanted =
      playback_wanted s requested maxsize ∧
    (process_audio_playback s requested maxsize).2.ring.readindex =
      (playback_entry s).ring.readindex ∧
    (¬ (s.io_position.isSome = true ∧ s.direct_timestamp = true) →
      (process_audio_playback s requested maxsize).2.ring.readindex = s.ring.readindex) ∧
    (process_audio_playback s requested maxsize).2.have_sync = false := by
  unfold process_audio_playback
  dsimp only
  rw [if_pos hu]
  refine ⟨rfl, rfl, rfl, ?_, rfl⟩
  intro hnd
  have he : playback_entry s = s := by
    unfold playback_entry
    rw [if_neg hnd]
  rw [he]

/-- Witness for C6: the empty demo ring (0 available) with 4 samples
requested. -/
theorem C6_underrun_silence_witness :
    ((spa_ringbuffer_get_read_index (playback_entry demoImpl).ring).1 <
      i32 (u32 (playback_wanted demoImpl 4 16))) ∧
    ((process_audio_playback demoImpl 4 16).1.out =
      List.replicate (playback_wanted demoImpl 4 16 * demoImpl.stride) 0 ∧
     (process_audio_playback demoImpl 4 16).1.wanted = playback_wanted demoImpl 4 16 ∧
     (process_audio_playback demoImpl 4 16).2.ring.readindex =
       (playback_entry demoImpl).ring.readindex ∧
     (¬ (demoImpl.io_position.isSome = true ∧ demoImpl.direct_timestamp = true) →
       (process_audio_playback demoImpl 4 16).2.ring.readindex =
         demoImpl.ring.readindex) ∧
     (process_audio_playback demoImpl 4 16).2.have_sync = false) :=
  ⟨by decide, C6_underrun_silence demoImpl 4 16 (by decide)⟩

/-- The direct-timestamp entry step touches only the ring cursors. -/
lemma playback_entry_pres (s : RtpImpl) :
    (playback_entry s).direct_timestamp = s.direct_timestamp ∧
    (playback_entry s).io_rate_match = s.io_rate_match ∧
    (playback_entry s).dll = s.dll ∧
    (playback_entry s).target_buffer = s.target_buffer ∧
    (playback_entry s).max_error = s.max_error := by
  unfold playback_entry
  split <;> exact ⟨rfl, rfl, rfl, rfl, rfl⟩

/-- The skip step touches only the `first` flag of the state. -/
lemma playback_skip_pres (i : RtpImpl) (t : Nat) (a : Int) :
    (playback_skip i t a).2.2.direct_timestamp = i.direct_timestamp ∧
    (playback_skip i t a).2.2.io_rate_match = i.io_rate_match ∧
    (playback_skip i t a).2.2.dll = i.dll ∧
    (playback_skip i t a).2.2.target_buffer = i.target_buffer ∧
    (playback_skip i t a).2.2.max_error = i.max_error := by
  unfold playback_skip
  split_ifs <;> exact ⟨rfl, rfl, rfl, rfl, rfl⟩

/-- Claim C9: on a non-underrun pull, when direct-timestamp mode is off
the DLL is fed the occupancy error `target_occupancy - available`
(post-skip `available`), clamped to `±max_error`, and the returned
correction is applied to the host rate-matching primitive
(`rate = 1/corr` with the ACTIVE flag set) when one is attached; when
direct-timestamp mode is on the DLL is never updated and no rate
correction is applied. -/
theorem C9_dll_correction (s : RtpImpl) (requested maxsize : Nat)
    (hnu : ¬ ((spa_ringbuffer_get_read_index (playback_entry s).ring).1 <
      i32 (u32 (playback_wanted s requested maxsize)))) :
    let e := playback_entry s
    let k := playback_skip e (spa_ringbuffer_get_read_index e.ring).2
      (spa_ringbuffer_get_read_index e.ring).1
    let err := spa_clamp ((u32 k.2.2.target_buffer : ℚ) - (k.2.1 : ℚ))
      (-k.2.2.max_error) k.2.2.max_error
    k.2.2.target_buffer = s.target_buffer ∧
    k.2.2.max_error = s.max_error ∧
    k.2.2.dll = s.dll ∧
    (s.direct_timestamp = false →
      (process_audio_playback s requested maxsize).2.dll = (spa_dll_update s.dll err).2) ∧
    (s.direct_timestamp = false → ∀ rm : RateMatch, s.io_rate_match = some rm →
      (process_audio_playback s requested maxsize).2.io_rate_match =
        some { rate := 1 / (spa_dll_update s.dll err).1, active := true }) ∧
    (s.direct_timestamp = true →
      (process_audio_playback s requested maxsize).2.dll = s.dll ∧
      (process_audio_playback s requested maxsize).2.io_rate_match = s.io_rate_match) := by
  intro e k err
  obtain ⟨edt, erm, edll, etg, eme⟩ := playback_entry_pres s
  obtain ⟨kdt, krm, kdll, ktg, kme⟩ := playback_skip_pres e
    (spa_ringbuffer_get_read_index e.ring).2 (spa_ringbuffer_get_read_index e.ring).1
  have hdproc : (process_audio_playback s requested maxsize).2.dll =
      (playback_dll_step k.2.2 k.2.1).dll := by
    unfold process_audio_playback
    dsimp only
    rw [if_neg hnu]
  have hrproc : (process_audio_playback s requested maxsize).2.io_rate_match =
      (playback_dll_step k.2.2 k.2.1).io_rate_match := by
    unfold process_audio_playback
    dsimp only
    rw [if_neg hnu]
  have hkdll : k.2.2.dll = s.dll := kdll.trans edll
  have hkrm2 : k.2.2.io_rate_match = s.io_rate_match := krm.trans erm
  have hktg : k.2.2.target_buffer = s.target_buffer := ktg.trans etg
  have hkme : k.2.2.max_error = s.max_error := kme.trans eme
  have hkdtf : k.2.2.direct_timestamp = s.direct_timestamp := kdt.trans edt
  refine ⟨hktg, hkme, hkdll, ?_, ?_, ?_⟩
  · intro hdir
    rw [hdproc]
    unfold playback_dll_step
    rw [if_neg (by simp [hkdtf.trans hdir])]
    rw [hkdll]
    dsimp only
    cases hopt : k.2.2.io_rate_match with
    | some rm => simp only [hopt]
    | none => simp only [hopt]
  · intro hdir rm hrm
    have hopt : k.2.2.io_rate_match = some rm := hkrm2.trans hrm
    rw [hrproc]
    unfold playback_dll_step
    rw [if_neg (by simp [hkdtf.trans hdir])]
    dsimp only
    rw [hopt]
    dsimp only
    rw [hkdll]
  · intro hdir
    rw [hdproc, hrproc]
    unfold playback_dll_step
    rw [if_pos (hkdtf.trans hdir)]
    exact ⟨hkdll, hkrm2⟩

/-- Witness for C9: a non-direct state with 8 samples resident, 4
requested, and an attached rate-match primitive. -/
theorem C9_dll_correction_witness :
    (¬ ((spa_ringbuffer_get_read_index (playback_entry demo9).ring).1 <
      i32 (u32 (playback_wanted demo9 4 16)))) ∧
    (let e := playback_entry demo9
     let k := playback_skip e (spa_ringbuffer_get_read_index e.ring).2
       (spa_ringbuffer_get_read_index e.ring).1
     let err := spa_clamp ((u32 k.2.2.target_buffer : ℚ) - (k.2.1 : ℚ))
       (-k.2.2.max_error) k.2.2.max_error
     k.2.2.target_buffer = demo9.target_buffer ∧
     k.2.2.max_error = demo9.max_error ∧
     k.2.2.dll = demo9.dll ∧
     (demo9.direct_timestamp = false →
       (process_audio_playback demo9 4 16).2.dll = (spa_dll_update demo9.dll err).2) ∧
     (demo9.direct_timestamp = false → ∀ rm : RateMatch, demo9.io_rate_match = some rm →
       (process_audio_playback demo9 4 16).2.io_rate_match =
         some { rate := 1 / (spa_dll_update demo9.dll err).1, active := true }) ∧
     (demo9.direct_timestamp = true →
       (process_audio_playback demo9 4 16).2.dll = demo9.dll ∧
       (process_audio_playback demo9 4 16).2.io_rate_match = demo9.io_rate_match)) :=
  ⟨by decide, C9_dll_correction demo9 4 16 (by decide)⟩

/-- Claim C10: on the capture side, whenever sync is absent or lost
(first cycle, timestamp mismatch, or would-be overrun), the handler
anchors both cursors at the current clock timestamp with zero occupancy
(unlike the receiver's `target_occupancy` anchor), zeroes the ring, and
then the cycle's samples are still written at the timestamp offset and
the write cursor advanced by the cycle's sample count — the cycle's data
is not dropped, even when an overrun was detected. -/
theorem C10_capture_zero_anchor (s : RtpImpl) (input : List Nat) (pos : Nat)
    (hio : s.io_position = some pos)
    (hlost : s.have_sync = false ∨ s.ring.writeindex ≠ u32 pos ∨
      i32 (u32sub s.ring.writeindex s.ring.readindex) + i32 (u32 (input.length / s.stride)) >
        i32 (s.bufferSize / s.stride)) :
    (process_capture_fill s input).ring.readindex = u32 pos ∧
    (process_capture_fill s input).ring.writeindex =
      u32 (u32 pos + input.length / s.stride) ∧
    (process_capture_fill s input).buffer =
      ringWrite (List.replicate s.bufferSize 0) s.bufferSize
        ((u32 pos * s.stride) &&& (s.bufferSize - 1))
        ((input.take (input.length / s.stride * s.stride)).map (· % 256)) ∧
    (process_capture_fill s input).have_sync = true := by
  unfold process_capture_fill spa_ringbuffer_get_write_index
  rw [hio]
  dsimp only
  by_cases h1 : s.have_sync = true
  · rw [if_pos h1]
    by_cases h2 : s.ring.writeindex ≠ u32 pos
    · rw [if_pos h2]
      dsimp only
      rw [if_pos (by decide : ¬ (false = true))]
      exact ⟨rfl, rfl, rfl, rfl⟩
    · rw [if_neg h2]
      have h3 : i32 (u32sub s.ring.writeindex s.ring.readindex) +
          i32 (u32 (input.length / s.stride)) > i32 (s.bufferSize / s.stride) := by
        rcases hlost with h | h | h
        · rw [h1] at h
          exact absurd h (by decide)
        · exact absurd h h2
        · exact h
      rw [if_pos h3]
      dsimp only
      rw [if_pos (by decide : ¬ (false = true))]
      exact ⟨rfl, rfl, rfl, rfl⟩
  · rw [if_neg h1]
    have h0 : s.have_sync = false := by
      cases hv : s.have_sync
      · rfl
      · exact absurd hv h1
    rw [if_pos (by rw [h0]; decide : ¬ (s.have_sync = true))]
    exact ⟨rfl, rfl, rfl, rfl⟩

/-- Witness for C10: the clock-driven capture state with absent sync and
a 4-byte cycle. -/
theorem C10_capture_zero_anchor_witness :
    demoCapture.io_position = some 200 ∧
    (demoCapture.have_sync = false ∨ demoCapture.ring.writeindex ≠ u32 200 ∨
      i32 (u32sub demoCapture.ring.writeindex demoCapture.ring.readindex) +
        i32 (u32 (([1, 2, 3, 4] : List Nat).length / demoCapture.stride)) >
        i32 (demoCapture.bufferSize / demoCapture.stride)) ∧
    ((process_capture_fill demoCapture [1, 2, 3, 4]).ring.readindex = u32 200 ∧
     (process_capture_fill demoCapture [1, 2, 3, 4]).ring.writeindex =
       u32 (u32 200 + ([1, 2, 3, 4] : List Nat).length / demoCapture.stride) ∧
     (process_capture_fill demoCapture [1, 2, 3, 4]).buffer =
       ringWrite (List.replicate demoCapture.bufferSize 0) demoCapture.bufferSize
         ((u32 200 * demoCapture.stride) &&& (demoCapture.bufferSize - 1))
         ((([1, 2, 3, 4] : List Nat).take
           (([1, 2, 3, 4] : List Nat).length / demoCapture.stride * demoCapture.stride)).map
           (· % 256)) ∧
     (process_capture_fill demoCapture [1, 2, 3, 4]).have_sync = true) :=
  ⟨rfl, Or.inl rfl, C10_capture_zero_anchor demoCapture [1, 2, 3, 4] 200 rfl (Or.inl rfl)⟩

end Pipewire
